import Mathlib

/-
Verification development for the Jasper speech-I/O backend (client/stt.py,
client/tts.py): a shallow embedding of the engine registry and selection
protocol, the Baidu credential token manager, and the transcribe/say
operations, together with theorems settling the frozen claims C1..C10.

Modelling conventions:
* Python exceptions are values of `PyErr`; a function that can raise
  returns `Except PyErr A` (or pairs the result with `Option PyErr` when
  the mutated object state must stay observable after a raise, as for
  `get_token`).
* The single HTTP round trip performed by a call is an input of type
  `HttpOutcome`: either the connection itself failed (`netError`, which in
  the source makes `requests.get`/`requests.post` raise ConnectionError),
  or a response with a status code and a body arrived.
  `raise_for_status` raises exactly for 4xx/5xx statuses (`httpFailed`).
* `json.loads` is modelled by an executable recursive-descent parser over
  the character list of the body (objects, arrays, strings without escape
  sequences, integers, true/false/null), failing like the source library
  on trailing data after the first document.
* Wall-clock time (`int(time.time())`) is an explicit `now : Int` input.
* Logging calls are ignored: they do not affect data flow.
-/

namespace Jasper

/-- Python exception values that the modelled code can raise or catch. -/
inductive PyErr where
  | connectionError
  | httpError (status : Nat)
  | valueError (msg : String)
  | keyError
  | indexError
  | typeError (msg : String)
  | attributeError
  | oSError (msg : String)
deriving DecidableEq, Repr

/-- An HTTP response: status code and body text. -/
structure HttpResp where
  status : Nat
  body : String
deriving DecidableEq, Repr

/-- Outcome of one HTTP request: the connection failed (requests raises
ConnectionError) or a response arrived. -/
inductive HttpOutcome where
  | netError
  | resp (r : HttpResp)
deriving DecidableEq, Repr

/-- A Python sequence of candidate transcripts, remembering whether the
source built it as a list or as a tuple (GoogleSTT.transcribe returns a
tuple on the success path and a list on the empty and error paths). -/
inductive PyResult where
  | pyList (xs : List String)
  | pyTuple (xs : List String)
deriving DecidableEq, Repr

/-- requests.Response.raise_for_status raises HTTPError exactly for
4xx and 5xx status codes. -/
def httpFailed (status : Nat) : Bool :=
  400 ≤ status && status < 600

/-- Characters stripped by Python str.strip() / skipped by the json parser. -/
def isPySpace (c : Char) : Bool :=
  c = ' ' || c = '\t' || c = '\n' || c = '\r' || c.toNat = 11 || c.toNat = 12

/-- Python str.upper() for one character (ASCII case mapping). -/
def pyUpperChar (c : Char) : Char :=
  if 97 ≤ c.toNat && c.toNat ≤ 122 then Char.ofNat (c.toNat - 32) else c

/-- Python str.upper(). -/
def pyUpper (s : String) : String :=
  ⟨s.data.map pyUpperChar⟩

/-- Python phrase.replace(" ", ""). -/
def removeSpaces (s : String) : String :=
  ⟨s.data.filter (fun c => c ≠ ' ')⟩

/-- JSON values as produced by json.loads / requests.Response.json(). -/
inductive Json where
  | null
  | bool (b : Bool)
  | num (n : Int)
  | str (s : String)
  | arr (xs : List Json)
  | obj (kvs : List (String × Json))

/-- Parses the remainder of a JSON string literal (after the opening
quote). Escape sequences are not needed by any modelled response body and
make the parse fail. -/
def parseStrChars : List Char → Option (List Char × List Char)
  | [] => none
  | c :: cs =>
    if c = '"' then some ([], cs)
    else if c = '\\' then none
    else (parseStrChars cs).map (fun p => (c :: p.1, p.2))

/-- Decimal digits to a number. -/
def digitsToNat (ds : List Char) : Nat :=
  ds.foldl (fun a c => a * 10 + (c.toNat - 48)) 0

/-- Parses a nonempty run of decimal digits. -/
def parseNatChars (cs : List Char) : Option (Nat × List Char) :=
  let ds := cs.takeWhile Char.isDigit
  if ds.isEmpty then none else some (digitsToNat ds, cs.dropWhile Char.isDigit)

/-- Recursive-descent JSON parser with explicit fuel (structural, so that
concrete parses reduce in the kernel). Array and object continuations are
parsed by re-entering the same function on a reopened container, which
keeps the recursion non-mutual. -/
def parseVal : Nat → List Char → Option (Json × List Char)
  | 0, _ => none
  | Nat.succ fuel, cs =>
    match cs.dropWhile isPySpace with
    | [] => none
    | c :: rest =>
      if c = '"' then
        (parseStrChars rest).map (fun p => (Json.str ⟨p.1⟩, p.2))
      else if c = '[' then
        match rest.dropWhile isPySpace with
        | ']' :: r => some (Json.arr [], r)
        | rest2 =>
          match parseVal fuel rest2 with
          | none => none
          | some (v, r) =>
            match r.dropWhile isPySpace with
            | ',' :: r2 =>
              match parseVal fuel ('[' :: r2) with
              | some (Json.arr vs, r3) => some (Json.arr (v :: vs), r3)
              | _ => none
            | ']' :: r2 => some (Json.arr [v], r2)
            | _ => none
      else if c = '{' then
        match rest.dropWhile isPySpace with
        | '}' :: r => some (Json.obj [], r)
        | '"' :: r =>
          match parseStrChars r with
          | none => none
          | some (k, r1) =>
            match r1.dropWhile isPySpace with
            | ':' :: r2 =>
              match parseVal fuel r2 with
              | none => none
              | some (v, r3) =>
                match r3.dropWhile isPySpace with
                | ',' :: r4 =>
                  match parseVal fuel ('{' :: r4) with
                  | some (Json.obj kvs, r5) => some (Json.obj ((⟨k⟩, v) :: kvs), r5)
                  | _ => none
                | '}' :: r4 => some (Json.obj [(⟨k⟩, v)], r4)
                | _ => none
            | _ => none
        | _ => none
      else if c = 'n' then
        match rest with
        | 'u' :: 'l' :: 'l' :: r => some (Json.null, r)
        | _ => none
      else if c = 't' then
        match rest with
        | 'r' :: 'u' :: 'e' :: r => some (Json.bool true, r)
        | _ => none
      else if c = 'f' then
        match rest with
        | 'a' :: 'l' :: 's' :: 'e' :: r => some (Json.bool false, r)
        | _ => none
      else if c = '-' then
        (parseNatChars rest).map (fun p => (Json.num (-(p.1 : Int)), p.2))
      else if c.isDigit then
        (parseNatChars (c :: rest)).map (fun p => (Json.num (p.1 : Int), p.2))
      else none

/-- json.loads on a character list: parse one document and reject trailing
non-whitespace (the "Extra data" error of the source library). -/
def jsonLoadsChars (cs : List Char) : Except PyErr Json :=
  match parseVal (cs.length + 1) cs with
  | none => Except.error (PyErr.valueError "No JSON object could be decoded")
  | some (v, rest) =>
    if (rest.dropWhile isPySpace).isEmpty then Except.ok v
    else Except.error (PyErr.valueError "Extra data")

/-- json.loads / requests.Response.json(): raises ValueError on bodies that
are not a single JSON document. -/
def json_loads (s : String) : Except PyErr Json :=
  jsonLoadsChars s.data

/-- Python j[k] for a string key: dict lookup (KeyError when absent),
TypeError on non-dict values. -/
def jGet (j : Json) (k : String) : Except PyErr Json :=
  match j with
  | Json.obj kvs =>
    match kvs.find? (fun kv => kv.1 == k) with
    | some kv => Except.ok kv.2
    | none => Except.error PyErr.keyError
  | _ => Except.error (PyErr.typeError "object is not subscriptable")

/-- Python j[i] for an integer index: list indexing (IndexError when out of
range), one-character string for string values, TypeError otherwise. -/
def jIndex (j : Json) (i : Nat) : Except PyErr Json :=
  match j with
  | Json.arr xs =>
    match xs.get? i with
    | some v => Except.ok v
    | none => Except.error PyErr.indexError
  | Json.str s =>
    match s.data.get? i with
    | some c => Except.ok (Json.str ⟨[c]⟩)
    | none => Except.error PyErr.indexError
  | _ => Except.error (PyErr.typeError "object is not subscriptable")

/-- Python len(j). -/
def jLen (j : Json) : Except PyErr Nat :=
  match j with
  | Json.arr xs => Except.ok xs.length
  | Json.obj kvs => Except.ok kvs.length
  | Json.str s => Except.ok s.data.length
  | _ => Except.error (PyErr.typeError "object has no length")

/-- Naive substring test used for the Python "k in s" string case. -/
def startsWithChars : List Char → List Char → Bool
  | [], _ => true
  | _ :: _, [] => false
  | p :: ps, c :: cs => p = c && startsWithChars ps cs

/-- Membership of pattern as a contiguous substring. -/
def hasSubstr (pat : List Char) : List Char → Bool
  | [] => startsWithChars pat []
  | c :: cs => startsWithChars pat (c :: cs) || hasSubstr pat cs

/-- Python "k in j": dict key membership, list element membership (a string
key can only equal string elements), substring test for strings, TypeError
otherwise. -/
def jContains (j : Json) (k : String) : Except PyErr Bool :=
  match j with
  | Json.obj kvs => Except.ok (kvs.any (fun kv => kv.1 == k))
  | Json.arr xs =>
    Except.ok (xs.any (fun x => match x with
      | Json.str t => t == k
      | _ => false))
  | Json.str s => Except.ok (hasSubstr k.data s.data)
  | _ => Except.error (PyErr.typeError "argument is not iterable")

/-- String stored for a dynamically assigned token value. The real token
endpoint returns a string access_token; non-string JSON values are
rendered, which no modelled flow exercises. -/
def jStrVal : Json → String
  | Json.str s => s
  | Json.num n => toString n
  | Json.null => "None"
  | Json.bool true => "True"
  | Json.bool false => "False"
  | Json.arr _ => "<arr>"
  | Json.obj _ => "<obj>"

/-- Python int(x) on a JSON value: identity on numbers, digit parse on
strings (ValueError when not a decimal literal), bool to 0/1, TypeError
otherwise. -/
def pyInt (j : Json) : Except PyErr Int :=
  match j with
  | Json.num n => Except.ok n
  | Json.bool b => Except.ok (if b then 1 else 0)
  | Json.str s =>
    match parseNatChars s.data with
    | some (n, rest) =>
      if rest.isEmpty then Except.ok (n : Int)
      else Except.error (PyErr.valueError "invalid literal for int")
    | none => Except.error (PyErr.valueError "invalid literal for int")
  | _ => Except.error (PyErr.typeError "int argument must be a string or a number")

/-- Python x.encode for a JSON value: identity on strings, AttributeError
otherwise (non-strings have no encode method). -/
def jEncodeStr (j : Json) : Except PyErr String :=
  match j with
  | Json.str s => Except.ok s
  | _ => Except.error PyErr.attributeError

/-- Python x.upper() applied to a JSON value taken from a response:
AttributeError on non-strings. -/
def jUpper (j : Json) : Except PyErr String :=
  match j with
  | Json.str s => Except.ok (pyUpper s)
  | _ => Except.error PyErr.attributeError

/-! ## Engine registry and selection (stt.get_engine_by_slug, tts.get_engine_by_slug) -/

/-- One entry of the get_engines() output: a concrete engine class with a
truthy SLUG attribute, together with the value its availability probe
(is_available) returns in the current environment. -/
structure EngineDesc where
  slug : String
  available : Bool
deriving DecidableEq, Repr

/-- Message of the ValueError raised by stt.get_engine_by_slug when no
engine matches the slug. -/
def sttNotFoundMsg (s : String) : String :=
  "No STT engine found for slug \x27" ++ s ++ "\x27"

/-- Message of the ValueError raised by stt.get_engine_by_slug when the
matched engine reports itself unavailable (the duplicated words are in the
source). -/
def sttUnavailableMsg (s : String) : String :=
  "STT engine \x27" ++ s ++ "\x27 is not available (due to missing dependencies, missing dependencies, etc.)"

/-- Message of the ValueError raised by tts.get_engine_by_slug when no
engine matches the slug. -/
def ttsNotFoundMsg (s : String) : String :=
  "No TTS engine found for slug \x27" ++ s ++ "\x27"

/-- Message of the ValueError raised by tts.get_engine_by_slug when the
matched engine reports itself unavailable. -/
def ttsUnavailableMsg (s : String) : String :=
  "TTS engine \x27" ++ s ++ "\x27 is not available (due to missing dependencies, etc.)"

/-- Splits a format string at its first %s conversion. -/
def fmtSplitPct : List Char → Option (List Char × List Char)
  | [] => none
  | '%' :: 's' :: r => some ([], r)
  | c :: r => (fmtSplitPct r).map (fun p => (c :: p.1, p.2))

/-- Python fmt % arg for a single string argument: substitutes the sole %s
conversion; raises TypeError when fmt has no conversion for the argument
(the tts.py duplicate-slug warning hits exactly this case) or too many. -/
def pyFormat1 (fmt arg : String) : Except PyErr String :=
  match fmtSplitPct fmt.data with
  | none => Except.error (PyErr.typeError "not all arguments converted during string formatting")
  | some (a, b) =>
    match fmtSplitPct b with
    | some _ => Except.error (PyErr.typeError "not enough arguments for format string")
    | none => Except.ok ⟨a ++ arg.data ++ b⟩

/-- stt.get_engine_by_slug over the registry produced by get_engines():
TypeError on a missing or empty slug; ValueError (not-found message) when
no entry matches; on several matches a formatted warning is printed (the
parenthesisation in stt.py makes the format succeed) and the first match
is kept; ValueError (unavailable message) when the kept match has a false
availability probe; otherwise the engine class together with the optional
warning text. The selected class is returned unconstructed: instantiation
(get_instance) happens only at the caller, after a successful selection. -/
def stt_get_engine_by_slug (registry : List EngineDesc) (slug : Option String) :
    Except PyErr (EngineDesc × Option String) :=
  match slug with
  | none => Except.error (PyErr.typeError "Invalid slug")
  | some s =>
    if s = "" then Except.error (PyErr.typeError "Invalid slug")
    else
      match registry.filter (fun e => e.slug == s) with
      | [] => Except.error (PyErr.valueError (sttNotFoundMsg s))
      | e :: restSel =>
        let warning : Except PyErr (Option String) :=
          if restSel.isEmpty then Except.ok none
          else (pyFormat1 "WARNING: Multiple STT engines found for slug \x27%s\x27. This is most certainly a bug." s).map some
        match warning with
        | Except.error err => Except.error err
        | Except.ok w =>
          if e.available then Except.ok (e, w)
          else Except.error (PyErr.valueError (sttUnavailableMsg s))

/-- tts.get_engine_by_slug: same shape as the STT selector, except that in
the duplicate-slug branch the source applies % only to the second string
literal ("This is most certainly a bug." % slug, which has no %s), so
evaluating the print argument raises TypeError before any warning is
printed. -/
def tts_get_engine_by_slug (registry : List EngineDesc) (slug : Option String) :
    Except PyErr (EngineDesc × Option String) :=
  match slug with
  | none => Except.error (PyErr.typeError "Invalid slug")
  | some s =>
    if s = "" then Except.error (PyErr.typeError "Invalid slug")
    else
      match registry.filter (fun e => e.slug == s) with
      | [] => Except.error (PyErr.valueError (ttsNotFoundMsg s))
      | e :: restSel =>
        let warning : Except PyErr (Option String) :=
          if restSel.isEmpty then Except.ok none
          else (pyFormat1 "This is most certainly a bug." s).map
            (fun t => some ("WARNING: Multiple TTS engines found for slug \x27%s\x27. " ++ t))
        match warning with
        | Except.error err => Except.error err
        | Except.ok w =>
          if e.available then Except.ok (e, w)
          else Except.error (PyErr.valueError (ttsUnavailableMsg s))

/-! ## GoogleSTT.transcribe -/

/-- Python truthiness test for the api_key / language attributes: None and
the empty string are falsy. -/
def pyFalsyOpt : Option String → Bool
  | none => true
  | some s => s = ""

/-- Leading- and trailing-whitespace strip (Python str.strip()). -/
def pyStripList (cs : List Char) : List Char :=
  (((cs.dropWhile isPySpace).reverse.dropWhile isPySpace)).reverse

/-- Characters after the first newline, when one exists. -/
def afterFirstNl : List Char → Option (List Char)
  | [] => none
  | c :: cs => if c = '\n' then some cs else afterFirstNl cs

/-- list(text.split(newline, 1))[-1]: everything after the first newline,
or the whole text when it has none. The split happens at most once, so for
three or more newline-separated documents this keeps a tail that still
contains newlines. -/
def lastDocChars (cs : List Char) : List Char :=
  match afterFirstNl cs with
  | some r => r
  | none => cs

/-- The list comprehension [alt["transcript"] for alt in ...]: the first
missing key raises out of the comprehension. -/
def collectTranscripts : List Json → Except PyErr (List Json)
  | [] => Except.ok []
  | alt :: rest => do
    let t ← jGet alt "transcript"
    let ts ← collectTranscripts rest
    Except.ok (t :: ts)

/-- tuple(result.upper() for result in results): uppercases every
collected transcript (AttributeError on a non-string value). -/
def upperAll : List Json → Except PyErr (List String)
  | [] => Except.ok []
  | t :: rest => do
    let s ← jUpper t
    let ss ← upperAll rest
    Except.ok (s :: ss)

/-- Body of the try block of GoogleSTT.transcribe after the HTTP round
trip: parse the kept document, index response["result"], raise ValueError
when it is empty, then collect alt["transcript"] over
response["result"][0]["alternative"]. -/
def googleTryChars (doc : List Char) : Except PyErr (List Json) := do
  let response ← jsonLoadsChars doc
  let res ← jGet response "result"
  let n ← jLen res
  if n = 0 then
    Except.error (PyErr.valueError "Nothing has been transcribed.")
  else do
    let first ← jIndex res 0
    let alts ← jGet first "alternative"
    match alts with
    | Json.arr xs => collectTranscripts xs
    | _ => Except.error (PyErr.typeError "object is not iterable")

/-- Response-body handling of GoogleSTT.transcribe: strip, keep the last
of at most two newline-separated documents, run the try block; ValueError,
KeyError and IndexError are caught and give the empty list (a Python
list), any other exception propagates; on success the transcripts are
uppercased into a Python tuple (the uppercasing runs in the else clause,
outside the except handlers). -/
def googleHandleBody (body : String) : Except PyErr PyResult :=
  match googleTryChars (lastDocChars (pyStripList body.data)) with
  | Except.ok ts => (upperAll ts).map PyResult.pyTuple
  | Except.error (PyErr.valueError _) => Except.ok (PyResult.pyList [])
  | Except.error PyErr.keyError => Except.ok (PyResult.pyList [])
  | Except.error PyErr.indexError => Except.ok (PyResult.pyList [])
  | Except.error e => Except.error e

/-- GoogleSTT.transcribe on a well-formed wav input: missing api_key or
language return an empty list immediately; the POST to the speech API
either fails at the connection level (requests raises ConnectionError,
which nothing catches) or yields a response; a 4xx/5xx status is caught as
HTTPError and gives an empty list; otherwise the body is parsed. -/
def googleSTT_transcribe (api_key language : Option String) (post : HttpOutcome) :
    Except PyErr PyResult :=
  if pyFalsyOpt api_key then Except.ok (PyResult.pyList [])
  else if pyFalsyOpt language then Except.ok (PyResult.pyList [])
  else
    match post with
    | HttpOutcome.netError => Except.error PyErr.connectionError
    | HttpOutcome.resp r =>
      if httpFailed r.status then Except.ok (PyResult.pyList [])
      else googleHandleBody r.body

/-! ## Baidu credential token manager (BaiduSTT.get_token = BaiduTTS.get_token) -/

/-- The three token fields of a BaiduSTT / BaiduTTS instance:
access_token, expires_in and current_time (the recorded local issue time),
initialised to "", 0, 0 by the constructor. -/
structure BaiduState where
  access_token : String
  expires_in : Int
  current_time : Int
deriving DecidableEq, Repr

/-- get_token, identical in BaiduSTT and BaiduTTS. Returns the token
fields after the call together with the exception it raises, if any.
The guard skips the refresh while current_time + expires_in - 30 > now;
otherwise the token endpoint is called: a connection failure raises
(requests.get is outside the try block), a 4xx/5xx status is caught as
HTTPError and leaves the fields unchanged, and the two field assignments
run in source order, so a response whose JSON lacks a usable expires_in
raises after access_token has already been overwritten. -/
def get_token (st : BaiduState) (now : Int) (refresh : HttpOutcome) :
    BaiduState × Option PyErr :=
  if st.current_time + st.expires_in - 30 > now then (st, none)
  else
    match refresh with
    | HttpOutcome.netError => (st, some PyErr.connectionError)
    | HttpOutcome.resp r =>
      if httpFailed r.status then (st, none)
      else
        match json_loads r.body with
        | Except.error e => (st, some e)
        | Except.ok j =>
          match jGet j "access_token" with
          | Except.error e => (st, some e)
          | Except.ok tokJ =>
            let st1 := { st with access_token := jStrVal tokJ }
            match jGet j "expires_in" with
            | Except.error e => (st1, some e)
            | Except.ok expJ =>
              match pyInt expJ with
              | Except.error e => (st1, some e)
              | Except.ok n => ({ st1 with expires_in := n, current_time := now }, none)

/-! ## BaiduSTT.transcribe -/

/-- Try-block body of BaiduSTT.transcribe after the HTTP round trip:
r.json() (ValueError on a malformed body), the "result" membership test,
and text = r.json()["result"][0].encode("utf-8") when present; afterwards
the else clause returns [text.upper()] for a nonempty text and [] for an
empty one. ValueError and KeyError are caught and give []; IndexError (an
empty "result" list), TypeError and AttributeError are not in the except
clauses and propagate. -/
def baiduTryBody (body : String) : Except PyErr String := do
  let j ← json_loads body
  let c ← jContains j "result"
  if c then do
    let res ← jGet j "result"
    let t ← jIndex res 0
    jEncodeStr t
  else
    Except.ok ""

/-- Exception handling around the try block: ValueError and KeyError are
caught and give [], everything else propagates; the else clause shapes the
success value. -/
def baiduHandleBody (body : String) : Except PyErr (List String) :=
  match baiduTryBody body with
  | Except.ok text => Except.ok (if text = "" then [] else [pyUpper text])
  | Except.error (PyErr.valueError _) => Except.ok []
  | Except.error PyErr.keyError => Except.ok []
  | Except.error e => Except.error e

/-- BaiduSTT.transcribe on a readable wav input: get_token runs first and
its exceptions propagate (the call is before the try block); the POST to
the recognition endpoint is also outside the try block, so a connection
failure raises; a 4xx/5xx status is caught as HTTPError and gives [];
otherwise the body is handled. The token fields after the call are
returned alongside the outcome. -/
def baiduSTT_transcribe (st : BaiduState) (now : Int)
    (tokenResp post : HttpOutcome) : BaiduState × Except PyErr (List String) :=
  match get_token st now tokenResp with
  | (st1, some e) => (st1, Except.error e)
  | (st1, none) =>
    match post with
    | HttpOutcome.netError => (st1, Except.error PyErr.connectionError)
    | HttpOutcome.resp r =>
      (st1, if httpFailed r.status then Except.ok [] else baiduHandleBody r.body)

/-! ## JuliusSTT.transcribe -/

/-- Stable insertion of one (hypothesis index, text) pair. -/
def insertByIdx (p : Nat × String) : List (Nat × String) → List (Nat × String)
  | [] => [p]
  | q :: t => if p.1 ≤ q.1 then p :: q :: t else q :: insertByIdx p t

/-- Python sorted(results, key=lambda x: x[0]) (stable). -/
def sortByIdx : List (Nat × String) → List (Nat × String)
  | [] => []
  | p :: t => insertByIdx p (sortByIdx t)

/-- JuliusSTT.transcribe given the (index, text) pairs the sentence regex
found in the decoder output: sort by hypothesis index, keep the truthy
(nonempty) texts, and append one empty string when nothing remains — the
no-match result is [""], a one-element list, not the empty list. -/
def julius_transcribe (results : List (Nat × String)) : List String :=
  let transcribed := ((sortByIdx results).map Prod.snd).filter (fun t => t != "")
  if transcribed.isEmpty then [""] else transcribed

/-! ## TTS engines: say and the transient artifact -/

/-- Languages accepted by GoogleTTS (the languages property). -/
def googleLangs : List String :=
  ["af", "sq", "ar", "hy", "ca", "zh-CN", "zh-TW", "hr", "cs",
   "da", "nl", "en", "eo", "fi", "fr", "de", "el", "ht", "hi",
   "hu", "is", "id", "it", "ja", "ko", "la", "lv", "mk", "no",
   "pl", "pt", "ro", "ru", "sr", "sk", "es", "sw", "sv", "ta",
   "th", "tr", "vi", "cy"]

/-- EspeakTTS.say over the set of existing files: a named temporary wav
file is created with delete=False, espeak writes into it (subprocess.call
absorbs the exit status), self.play is handed the file, and only after
play returns is os.remove reached — there is no try/finally, so when
playback raises the temporary file survives and the exception propagates. -/
def espeak_say (files : List String) (fname : String) (play : Option PyErr) :
    List String × Option PyErr :=
  let files1 := fname :: files
  match play with
  | some e => (files1, some e)
  | none => (files1.erase fname, none)

/-- GoogleTTS.say: an unsupported language raises ValueError before any
artifact exists; otherwise a temporary mp3 is created with delete=False,
tts.save performs the remote synthesis (its network failures propagate),
play_mp3 plays it, and os.remove runs only on the straight-line path —
when save or playback raises, the file survives and the exception
propagates. -/
def googleTTS_say (language : String) (files : List String) (tmpfile : String)
    (save play : Option PyErr) : List String × Option PyErr :=
  if language ∉ googleLangs then
    (files, some (PyErr.valueError "Language not supported"))
  else
    let files1 := tmpfile :: files
    match save with
    | some e => (files1, some e)
    | none =>
      match play with
      | some e => (files1, some e)
      | none => (files1.erase tmpfile, none)

/-! ## BaiduTTS: get_speech, say and the phrase cache -/

/-- Observable state of a BaiduTTS run: the token fields, the set of
existing files, the audio files handed to playback in order, and how many
text2audio synthesis requests have been issued. -/
structure TtsRun where
  tok : BaiduState
  files : List String
  played : List String
  synthReqs : Nat
deriving DecidableEq, Repr

/-- jasperpath.CONFIG_PATH. The concrete root never matters to a claim;
only equality of cache paths does. -/
def CONFIG_PATH : String := "/home/user/.jasper"

/-- Cache artifact path used by BaiduTTS.say:
os.path.join(CONFIG_PATH, SLUG + phrase.replace(" ", "") + ".mp3"). -/
def baiduCachePath (phrase : String) : String :=
  CONFIG_PATH ++ "/" ++ "baidu-tts" ++ removeSpaces phrase ++ ".mp3"

/-- The err_msg test of BaiduTTS.get_speech: true exactly when the
response has a non-error status and a JSON body whose err_msg member is
present and not null — every exception inside the tiny try block
(HTTPError from raise_for_status, ValueError from r.json(), KeyError from
the missing member) is swallowed by the bare except/pass. -/
def speechHasErrMsg (r : HttpResp) : Bool :=
  if httpFailed r.status then false
  else
    match json_loads r.body with
    | Except.error _ => false
    | Except.ok j =>
      match jGet j "err_msg" with
      | Except.ok Json.null => false
      | Except.ok _ => true
      | Except.error _ => false

/-- BaiduTTS.get_speech: refresh the token (exceptions propagate), issue
the text2audio POST (counted; a connection failure raises), return None on
a reported err_msg, and otherwise write r.content to a fresh named
temporary mp3 (delete=False inside the with block, so the file persists)
whose path is returned. -/
def baiduTTS_get_speech (s : TtsRun) (now : Int) (tokenResp synthResp : HttpOutcome)
    (tmpname : String) : TtsRun × Except PyErr (Option String) :=
  match get_token s.tok now tokenResp with
  | (tok1, some e) => ({ s with tok := tok1 }, Except.error e)
  | (tok1, none) =>
    let s1 := { s with tok := tok1, synthReqs := s.synthReqs + 1 }
    match synthResp with
    | HttpOutcome.netError => (s1, Except.error PyErr.connectionError)
    | HttpOutcome.resp r =>
      if speechHasErrMsg r then (s1, Except.ok none)
      else ({ s1 with files := tmpname :: s1.files }, Except.ok (some tmpname))

/-- BaiduTTS.say: with cache=true and the cache artifact already on disk,
play it and synthesize nothing; otherwise call get_speech and, when it
returns a path, play it and then either os.rename it onto the cache path
(cache=true: persisted instead of deleted) or os.remove it. play_mp3 is
modelled as recording the played path (its own failures are the concern
of the espeak/google models, not of the cache claim). -/
def baiduTTS_say (s : TtsRun) (phrase : String) (cache : Bool) (now : Int)
    (tokenResp synthResp : HttpOutcome) (tmpname : String) : TtsRun × Option PyErr :=
  let cp := baiduCachePath phrase
  if cache && s.files.contains cp then
    ({ s with played := s.played ++ [cp] }, none)
  else
    match baiduTTS_get_speech s now tokenResp synthResp tmpname with
    | (s1, Except.error e) => (s1, some e)
    | (s1, Except.ok none) => (s1, none)
    | (s1, Except.ok (some tmp)) =>
      let s2 := { s1 with played := s1.played ++ [tmp] }
      if cache then ({ s2 with files := cp :: s2.files.erase tmp }, none)
      else ({ s2 with files := s2.files.erase tmp }, none)

/-! ## Claims C3 and C4: the credential token manager -/

/-- Token response body used to exhibit a successful refresh. -/
def tokenRespBody : String :=
  "\x7b\"access_token\":\"tok2\",\"expires_in\":3600\x7d"

/-- Token response body carrying an access_token but no expires_in. -/
def partialTokenBody : String :=
  "\x7b\"access_token\":\"NEW\"\x7d"

/-- C3, counterexample. The claim says a call at T+3569 (with a token
issued at T with expires_in 3600) triggers a refresh. In the code the
guard current_time + expires_in - 30 > now still holds at now = T+3569
(3570 > 3569), so get_token returns without touching the refresh
endpoint: even against a dead network it neither raises nor changes the
fields, which a triggered refresh necessarily would. The refresh fires
one second later, at T+3570. -/
theorem C3_counterexample :
    get_token ⟨"tok", 3600, 0⟩ 3569 HttpOutcome.netError = (⟨"tok", 3600, 0⟩, none) ∧
    get_token ⟨"tok", 3600, 0⟩ 3570 HttpOutcome.netError =
      (⟨"tok", 3600, 0⟩, some PyErr.connectionError) :=
  ⟨rfl, rfl⟩

/-- C3, amended: the manager refreshes exactly when
now >= current_time + expires_in - 30 (that is, 30 seconds or less remain
before expires_at); for a token issued at T with expires_in = 3600 the
first refreshing call is at T+3570, and a call at T+3569 (or earlier)
does not trigger a refresh. While the guard holds the refresh input is
never consulted; once it fails, the endpoint is really called: a dead
connection raises ConnectionError, and a good response installs the new
token with current_time set to now. -/
theorem C3_amended_theorem :
    (∀ (st : BaiduState) (now : Int), st.current_time + st.expires_in - 30 > now →
      ∀ r : HttpOutcome, get_token st now r = (st, none)) ∧
    (∀ (st : BaiduState) (now : Int), st.current_time + st.expires_in - 30 ≤ now →
      get_token st now HttpOutcome.netError = (st, some PyErr.connectionError) ∧
      get_token st now (HttpOutcome.resp ⟨200, tokenRespBody⟩) =
        ({ access_token := "tok2", expires_in := 3600, current_time := now }, none)) := by
  constructor
  · intro st now h r
    unfold get_token
    rw [if_pos h]
  · intro st now h
    have hneg : ¬(st.current_time + st.expires_in - 30 > now) := not_lt.mpr h
    constructor
    · unfold get_token
      rw [if_neg hneg]
    · unfold get_token
      rw [if_neg hneg]
      rfl

/-- C3, witness: a token issued at T = 0 with expires_in 3600 is not
refreshed at now = 3569 (regardless of the network) and is refreshed at
now = 3570. -/
theorem C3_amended_theorem_witness :
    get_token ⟨"tok", 3600, 0⟩ 3569 HttpOutcome.netError = (⟨"tok", 3600, 0⟩, none) ∧
    get_token ⟨"tok", 3600, 0⟩ 3570 HttpOutcome.netError =
      (⟨"tok", 3600, 0⟩, some PyErr.connectionError) ∧
    get_token ⟨"tok", 3600, 0⟩ 3570 (HttpOutcome.resp ⟨200, tokenRespBody⟩) =
      (⟨"tok2", 3600, 3570⟩, none) :=
  ⟨C3_amended_theorem.1 ⟨"tok", 3600, 0⟩ 3569 (by decide) HttpOutcome.netError,
   (C3_amended_theorem.2 ⟨"tok", 3600, 0⟩ 3570 (by decide)).1,
   (C3_amended_theorem.2 ⟨"tok", 3600, 0⟩ 3570 (by decide)).2⟩

/-- C4, counterexample. The claim says every failed refresh (explicitly
including a network error) leaves the three token fields unchanged and
does not raise. In the code requests.get stands outside the try block, so
a connection failure raises ConnectionError out of get_token; and a
response whose JSON carries access_token but no expires_in raises
KeyError after access_token has already been overwritten, so the fields
are not left exactly as they were. -/
theorem C4_counterexample :
    get_token ⟨"old", 3600, 0⟩ 4000 HttpOutcome.netError =
      (⟨"old", 3600, 0⟩, some PyErr.connectionError) ∧
    get_token ⟨"old", 3600, 0⟩ 4000 (HttpOutcome.resp ⟨200, partialTokenBody⟩) =
      (⟨"NEW", 3600, 0⟩, some PyErr.keyError) :=
  ⟨rfl, rfl⟩

/-- C4, amended: only the non-2xx-status refresh failure is absorbed —
raise_for_status raises HTTPError, the handler logs and returns, and all
three token fields are exactly as before (this also holds trivially when
the guard skipped the refresh). A network error instead raises
ConnectionError to the caller (fields unchanged), a body that is not
valid JSON raises its ValueError (fields unchanged), and a JSON body with
access_token but no expires_in raises KeyError after access_token has
already been reassigned. -/
theorem C4_amended_theorem :
    (∀ (st : BaiduState) (now : Int) (r : HttpResp), httpFailed r.status = true →
      get_token st now (HttpOutcome.resp r) = (st, none)) ∧
    (∀ (st : BaiduState) (now : Int), st.current_time + st.expires_in - 30 ≤ now →
      get_token st now HttpOutcome.netError = (st, some PyErr.connectionError)) ∧
    (∀ (st : BaiduState) (now : Int) (r : HttpResp) (m : String),
      st.current_time + st.expires_in - 30 ≤ now → httpFailed r.status = false →
      json_loads r.body = Except.error (PyErr.valueError m) →
      get_token st now (HttpOutcome.resp r) = (st, some (PyErr.valueError m))) ∧
    (∀ (st : BaiduState) (now : Int), st.current_time + st.expires_in - 30 ≤ now →
      get_token st now (HttpOutcome.resp ⟨200, partialTokenBody⟩) =
        ({ st with access_token := "NEW" }, some PyErr.keyError)) := by
  refine ⟨?_, ?_, ?_, ?_⟩
  · intro st now r hr
    unfold get_token
    by_cases hg : st.current_time + st.expires_in - 30 > now
    · rw [if_pos hg]
    · rw [if_neg hg]
      simp [hr]
  · intro st now h
    unfold get_token
    rw [if_neg (not_lt.mpr h)]
  · intro st now r m h hr hj
    unfold get_token
    rw [if_neg (not_lt.mpr h)]
    simp [hr, hj]
  · intro st now h
    unfold get_token
    rw [if_neg (not_lt.mpr h)]
    rfl

/-- C4, witness: concrete instances of all four refresh outcomes for an
expired token issued at T = 0 with expires_in 3600, queried at 4000. -/
theorem C4_amended_theorem_witness :
    get_token ⟨"old", 3600, 0⟩ 4000 (HttpOutcome.resp ⟨500, "oops"⟩) =
      (⟨"old", 3600, 0⟩, none) ∧
    get_token ⟨"old", 3600, 0⟩ 4000 HttpOutcome.netError =
      (⟨"old", 3600, 0⟩, some PyErr.connectionError) ∧
    get_token ⟨"old", 3600, 0⟩ 4000 (HttpOutcome.resp ⟨200, "not json"⟩) =
      (⟨"old", 3600, 0⟩, some (PyErr.valueError "No JSON object could be decoded")) ∧
    get_token ⟨"old", 3600, 0⟩ 4000 (HttpOutcome.resp ⟨200, partialTokenBody⟩) =
      (⟨"NEW", 3600, 0⟩, some PyErr.keyError) :=
  ⟨C4_amended_theorem.1 ⟨"old", 3600, 0⟩ 4000 ⟨500, "oops"⟩ rfl,
   C4_amended_theorem.2.1 ⟨"old", 3600, 0⟩ 4000 (by decide),
   C4_amended_theorem.2.2.1 ⟨"old", 3600, 0⟩ 4000 ⟨200, "not json"⟩
     "No JSON object could be decoded" (by decide) rfl rfl,
   C4_amended_theorem.2.2.2 ⟨"old", 3600, 0⟩ 4000 (by decide)⟩

/-! ## Claim C5: multi-document Google responses -/

/-- A list with no whitespace character is untouched by dropWhile. -/
lemma dropWhile_eq_self_of_all {l : List Char} (h : ∀ c ∈ l, isPySpace c = false) :
    l.dropWhile isPySpace = l := by
  cases l with
  | nil => rfl
  | cons a t => simp [List.dropWhile_cons, h a (List.mem_cons_self a t)]

/-- dropWhile stops immediately on a non-whitespace head. -/
lemma dropWhile_head_false {b : Char} {t : List Char} (h : isPySpace b = false) :
    (b :: t).dropWhile isPySpace = b :: t := by
  simp [List.dropWhile_cons, h]

/-- strip is the identity on whitespace-free text. -/
lemma pyStripList_eq_self {l : List Char} (h : ∀ c ∈ l, isPySpace c = false) :
    pyStripList l = l := by
  unfold pyStripList
  rw [dropWhile_eq_self_of_all h,
    dropWhile_eq_self_of_all (fun c hc => h c (List.mem_reverse.mp hc)),
    List.reverse_reverse]

/-- The text after the first newline of a two-part concatenation is the
second part when the first is newline-free. -/
lemma afterFirstNl_of_append {d1 d2 : List Char} (h : ∀ c ∈ d1, c ≠ '\n') :
    afterFirstNl (d1 ++ '\n' :: d2) = some d2 := by
  induction d1 with
  | nil => simp [afterFirstNl]
  | cons a t ih =>
    rw [List.cons_append]
    have ha : a ≠ '\n' := h a (List.mem_cons_self a t)
    simp only [afterFirstNl, ha, if_false]
    exact ih (fun c hc => h c (List.mem_cons_of_mem a hc))

/-- Newline-free text has no after-newline part. -/
lemma afterFirstNl_eq_none {d : List Char} (h : ∀ c ∈ d, c ≠ '\n') :
    afterFirstNl d = none := by
  induction d with
  | nil => rfl
  | cons a t ih =>
    simp only [afterFirstNl, h a (List.mem_cons_self a t), if_false]
    exact ih (fun c hc => h c (List.mem_cons_of_mem a hc))

/-- A non-whitespace character is not a newline. -/
lemma notSpace_ne_nl {c : Char} (h : isPySpace c = false) : c ≠ '\n' := by
  intro hc
  subst hc
  exact absurd h (by decide)

/-- strip is the identity on doc1 ++ newline ++ doc2 when both documents
are nonempty and whitespace-free. -/
lemma pyStripList_twodoc {d1 d2 : List Char} (h1 : d1 ≠ []) (h2 : d2 ≠ [])
    (ha : ∀ c ∈ d1, isPySpace c = false) (hb : ∀ c ∈ d2, isPySpace c = false) :
    pyStripList (d1 ++ '\n' :: d2) = d1 ++ '\n' :: d2 := by
  obtain ⟨a, t, rfl⟩ := List.exists_cons_of_ne_nil h1
  obtain ⟨b, rt, hrev⟩ : ∃ b rt, d2.reverse = b :: rt := by
    rcases hd : d2.reverse with _ | ⟨b, rt⟩
    · exact absurd (List.reverse_eq_nil_iff.mp hd) h2
    · exact ⟨b, rt, rfl⟩
  have hbmem : b ∈ d2 := by
    have hb2 : b ∈ d2.reverse := by
      rw [hrev]
      exact List.mem_cons_self b rt
    exact List.mem_reverse.mp hb2
  have hfront : ((a :: t) ++ '\n' :: d2).dropWhile isPySpace = (a :: t) ++ '\n' :: d2 := by
    rw [List.cons_append]
    exact dropWhile_head_false (ha a (List.mem_cons_self a t))
  have hrevfull : ((a :: t) ++ '\n' :: d2).reverse = b :: (rt ++ '\n' :: (t.reverse ++ [a])) := by
    simp [List.reverse_append, hrev]
  unfold pyStripList
  rw [hfront, hrevfull, dropWhile_head_false (hb b hbmem), ← hrevfull, List.reverse_reverse]

/-- The document kept by GoogleSTT from doc1 ++ newline ++ doc2 is doc2;
from a single newline-free document it is the document itself. -/
lemma lastDoc_of_twodoc {d1 d2 : List Char} (h1 : d1 ≠ []) (h2 : d2 ≠ [])
    (ha : ∀ c ∈ d1, isPySpace c = false) (hb : ∀ c ∈ d2, isPySpace c = false) :
    lastDocChars (pyStripList (d1 ++ '\n' :: d2)) = d2 ∧
    lastDocChars (pyStripList d2) = d2 := by
  constructor
  · rw [pyStripList_twodoc h1 h2 ha hb]
    unfold lastDocChars
    rw [afterFirstNl_of_append (fun c hc => notSpace_ne_nl (ha c hc))]
  · rw [pyStripList_eq_self hb]
    unfold lastDocChars
    rw [afterFirstNl_eq_none (fun c hc => notSpace_ne_nl (hb c hc))]

/-- C5, counterexample. The claim quantifies over every response body
made of multiple newline-separated JSON documents, but the source splits
the stripped body at most once (split with maxsplit 1) and keeps the
tail, so with three documents the kept tail still contains a newline, is
not valid JSON, and the caught ValueError turns the call into an empty
list — not the ["HELLO"] the last document holds. -/
theorem C5_counterexample :
    googleSTT_transcribe (some "key") (some "en-us")
      (HttpOutcome.resp ⟨200,
        "\x7b\"result\":[]\x7d\n\x7b\"result\":[]\x7d\n\x7b\"result\":[\x7b\"alternative\":[\x7b\"transcript\":\"HELLO\"\x7d]\x7d]\x7d"⟩) =
      Except.ok (PyResult.pyList []) ∧
    PyResult.pyList [] ≠ PyResult.pyTuple ["HELLO"] ∧
    PyResult.pyList [] ≠ PyResult.pyList ["HELLO"] :=
  ⟨rfl, by decide, by decide⟩

/-- C5, amended: for a body of exactly two newline-separated documents
(each nonempty and whitespace-free, as the provider sends them) only the
last document determines the result, and the two-document body of the
claim parses to the candidate sequence HELLO (returned as a tuple); with
three or more documents the kept tail is not valid JSON and the result is
the empty list instead. -/
theorem C5_amended_theorem :
    (∀ d1 d2 : List Char, d1 ≠ [] → d2 ≠ [] →
      (∀ c ∈ d1, isPySpace c = false) → (∀ c ∈ d2, isPySpace c = false) →
      googleHandleBody ⟨d1 ++ '\n' :: d2⟩ = googleHandleBody ⟨d2⟩) ∧
    googleSTT_transcribe (some "key") (some "en-us")
      (HttpOutcome.resp ⟨200,
        "\x7b\"result\":[]\x7d\n\x7b\"result\":[\x7b\"alternative\":[\x7b\"transcript\":\"HELLO\"\x7d]\x7d]\x7d"⟩) =
      Except.ok (PyResult.pyTuple ["HELLO"]) := by
  constructor
  · intro d1 d2 h1 h2 ha hb
    obtain ⟨k1, k2⟩ := lastDoc_of_twodoc h1 h2 ha hb
    unfold googleHandleBody
    rw [show (String.mk (d1 ++ '\n' :: d2)).data = d1 ++ '\n' :: d2 from rfl,
      show (String.mk d2).data = d2 from rfl, k1, k2]
  · rfl

/-- C5, witness: the general two-document lemma applied to the two
concrete documents of the claim. -/
theorem C5_amended_theorem_witness :
    googleHandleBody "\x7b\"result\":[]\x7d\n\x7b\"result\":[\x7b\"alternative\":[\x7b\"transcript\":\"HELLO\"\x7d]\x7d]\x7d" =
      googleHandleBody "\x7b\"result\":[\x7b\"alternative\":[\x7b\"transcript\":\"HELLO\"\x7d]\x7d]\x7d" :=
  C5_amended_theorem.1
    ("\x7b\"result\":[]\x7d".data)
    ("\x7b\"result\":[\x7b\"alternative\":[\x7b\"transcript\":\"HELLO\"\x7d]\x7d]\x7d".data)
    (by decide) (by decide) (by decide) (by decide)

/-! ## Claim C8: the empty upstream result -/

/-- Membership through stable insertion. -/
lemma mem_insertByIdx {q p : Nat × String} {l : List (Nat × String)} :
    q ∈ insertByIdx p l ↔ q = p ∨ q ∈ l := by
  induction l with
  | nil => simp [insertByIdx]
  | cons a t ih =>
    unfold insertByIdx
    by_cases hle : p.1 ≤ a.1
    · simp [hle]
    · simp [hle, ih]
      tauto

/-- Sorting by hypothesis index does not change membership. -/
lemma mem_sortByIdx {q : Nat × String} {l : List (Nat × String)} :
    q ∈ sortByIdx l ↔ q ∈ l := by
  induction l with
  | nil => simp [sortByIdx]
  | cons a t ih => simp [sortByIdx, mem_insertByIdx, ih]

/-- C8, counterexample. The claim says JuliusSTT.transcribe with no
matched sentences returns an empty sequence; the source instead appends
one empty string to the empty list, so the no-match result is the
one-element sequence containing the empty string. -/
theorem C8_counterexample :
    julius_transcribe [] = [""] ∧ ([""] : List String) ≠ [] :=
  ⟨rfl, by decide⟩

/-- C8, amended: an empty upstream result is not an error and not null,
but the two engines differ in shape: JuliusSTT.transcribe with no matched
sentences (or only empty-text matches) returns the one-element list
containing the empty string, while GoogleSTT.transcribe with an empty
result list returns the empty list. -/
theorem C8_amended_theorem :
    (∀ rs : List (Nat × String), (∀ p ∈ rs, p.2 = "") → julius_transcribe rs = [""]) ∧
    googleSTT_transcribe (some "key") (some "en-us")
      (HttpOutcome.resp ⟨200, "\x7b\"result\":[]\x7d"⟩) =
      Except.ok (PyResult.pyList []) := by
  constructor
  · intro rs h
    unfold julius_transcribe
    have hnil : ((sortByIdx rs).map Prod.snd).filter (fun t => t != "") = [] := by
      apply List.filter_eq_nil_iff.mpr
      intro t ht
      obtain ⟨p, hp, rfl⟩ := List.mem_map.mp ht
      simp [h p (mem_sortByIdx.mp hp)]
    simp [hnil]
  · rfl

/-- C8, witness: the Julius case applied to an upstream run whose only
match has empty text. -/
theorem C8_amended_theorem_witness :
    julius_transcribe [(1, "")] = [""] :=
  C8_amended_theorem.1 [(1, "")] (by decide)

/-! ## Claims C1 and C10: per-call failure handling and result shapes -/

/-- C1, counterexample. The claim says a successfully constructed engine
never raises from transcribe, explicitly including network errors. In
GoogleSTT.transcribe the POST itself stands outside the try block, so a
connection-level failure raises ConnectionError to the caller. -/
theorem C1_counterexample :
    googleSTT_transcribe (some "key") (some "en-us") HttpOutcome.netError =
      Except.error PyErr.connectionError :=
  rfl

/-- Bind on a raised exception short-circuits. -/
lemma error_bind {α β : Type} (e : PyErr) (f : α → Except PyErr β) :
    (Except.error e >>= f : Except PyErr β) = Except.error e := rfl

/-- Bind on a successful value applies the continuation. -/
lemma ok_bind {α β : Type} (a : α) (f : α → Except PyErr β) :
    (Except.ok a >>= f : Except PyErr β) = f a := rfl

/-- C1, amended: GoogleSTT.transcribe and BaiduSTT.transcribe absorb
HTTP status failures (raise_for_status) and malformed response bodies
into an empty result plus a log record, but a network error raised while
issuing the request — including, for Baidu, during the token refresh that
precedes the request — propagates to the caller; and GoogleTTS.say
absorbs no per-call failure at all: an exception from the remote
synthesis (tts.save) or from playback propagates. -/
theorem C1_amended_theorem :
    (∀ (k l : Option String) (r : HttpResp),
      pyFalsyOpt k = false → pyFalsyOpt l = false → httpFailed r.status = true →
      googleSTT_transcribe k l (HttpOutcome.resp r) = Except.ok (PyResult.pyList [])) ∧
    (∀ (k l : Option String) (r : HttpResp) (m : String),
      pyFalsyOpt k = false → pyFalsyOpt l = false → httpFailed r.status = false →
      jsonLoadsChars (lastDocChars (pyStripList r.body.data)) =
        Except.error (PyErr.valueError m) →
      googleSTT_transcribe k l (HttpOutcome.resp r) = Except.ok (PyResult.pyList [])) ∧
    (∀ k l : Option String, pyFalsyOpt k = false → pyFalsyOpt l = false →
      googleSTT_transcribe k l HttpOutcome.netError = Except.error PyErr.connectionError) ∧
    (∀ (st : BaiduState) (now : Int) (tokR : HttpOutcome) (r : HttpResp),
      (get_token st now tokR).2 = none → httpFailed r.status = true →
      baiduSTT_transcribe st now tokR (HttpOutcome.resp r) =
        ((get_token st now tokR).1, Except.ok [])) ∧
    (∀ (st : BaiduState) (now : Int) (tokR : HttpOutcome) (r : HttpResp) (m : String),
      (get_token st now tokR).2 = none → httpFailed r.status = false →
      json_loads r.body = Except.error (PyErr.valueError m) →
      baiduSTT_transcribe st now tokR (HttpOutcome.resp r) =
        ((get_token st now tokR).1, Except.ok [])) ∧
    (∀ (st : BaiduState) (now : Int) (tokR : HttpOutcome),
      (get_token st now tokR).2 = none →
      baiduSTT_transcribe st now tokR HttpOutcome.netError =
        ((get_token st now tokR).1, Except.error PyErr.connectionError)) ∧
    (∀ (st : BaiduState) (now : Int) (post : HttpOutcome),
      st.current_time + st.expires_in - 30 ≤ now →
      baiduSTT_transcribe st now HttpOutcome.netError post =
        (st, Except.error PyErr.connectionError)) ∧
    (∀ (lang : String) (files : List String) (tmp : String) (e : PyErr) (p : Option PyErr),
      lang ∈ googleLangs → googleTTS_say lang files tmp (some e) p = (tmp :: files, some e)) ∧
    (∀ (lang : String) (files : List String) (tmp : String) (e : PyErr),
      lang ∈ googleLangs → googleTTS_say lang files tmp none (some e) = (tmp :: files, some e)) := by
  refine ⟨?_, ?_, ?_, ?_, ?_, ?_, ?_, ?_, ?_⟩
  · intro k l r hk hl hr
    simp [googleSTT_transcribe, hk, hl, hr]
  · intro k l r m hk hl hr hj
    simp [googleSTT_transcribe, hk, hl, hr, googleHandleBody, googleTryChars, hj, error_bind]
  · intro k l hk hl
    simp [googleSTT_transcribe, hk, hl]
  · intro st now tokR r htok hr
    unfold baiduSTT_transcribe
    rcases hg : get_token st now tokR with ⟨st1, e1⟩
    rw [hg] at htok
    simp at htok
    subst htok
    simp [hg, hr]
  · intro st now tokR r m htok hr hj
    unfold baiduSTT_transcribe
    rcases hg : get_token st now tokR with ⟨st1, e1⟩
    rw [hg] at htok
    simp at htok
    subst htok
    simp [hg, hr, baiduHandleBody, baiduTryBody, hj, error_bind]
  · intro st now tokR htok
    unfold baiduSTT_transcribe
    rcases hg : get_token st now tokR with ⟨st1, e1⟩
    rw [hg] at htok
    simp at htok
    subst htok
    simp [hg]
  · intro st now post h
    unfold baiduSTT_transcribe
    rw [show get_token st now HttpOutcome.netError =
      (st, some PyErr.connectionError) from by
        unfold get_token
        rw [if_neg (not_lt.mpr h)]]
  · intro lang files tmp e p hlang
    simp [googleTTS_say, hlang]
  · intro lang files tmp e hlang
    simp [googleTTS_say, hlang]

/-- C1, witness: concrete instances of every conjunct — absorbed 500
status and malformed body for both remote STT engines, raised connection
errors for the request and the token refresh, and raised synthesis and
playback failures for GoogleTTS.say. -/
theorem C1_amended_theorem_witness :
    googleSTT_transcribe (some "key") (some "en-us") (HttpOutcome.resp ⟨500, "oops"⟩) =
      Except.ok (PyResult.pyList []) ∧
    googleSTT_transcribe (some "key") (some "en-us") (HttpOutcome.resp ⟨200, "oops"⟩) =
      Except.ok (PyResult.pyList []) ∧
    googleSTT_transcribe (some "key") (some "en-us") HttpOutcome.netError =
      Except.error PyErr.connectionError ∧
    baiduSTT_transcribe ⟨"tok", 3600, 100⟩ 100 HttpOutcome.netError
      (HttpOutcome.resp ⟨500, "oops"⟩) = (⟨"tok", 3600, 100⟩, Except.ok []) ∧
    baiduSTT_transcribe ⟨"tok", 3600, 100⟩ 100 HttpOutcome.netError
      (HttpOutcome.resp ⟨200, "oops"⟩) = (⟨"tok", 3600, 100⟩, Except.ok []) ∧
    baiduSTT_transcribe ⟨"tok", 3600, 100⟩ 100 HttpOutcome.netError
      HttpOutcome.netError = (⟨"tok", 3600, 100⟩, Except.error PyErr.connectionError) ∧
    baiduSTT_transcribe ⟨"old", 3600, 0⟩ 4000 HttpOutcome.netError
      (HttpOutcome.resp ⟨200, "\x7b\"result\":[\"hello\"]\x7d"⟩) =
      (⟨"old", 3600, 0⟩, Except.error PyErr.connectionError) ∧
    googleTTS_say "en" [] "/tmp/t.mp3" (some PyErr.connectionError) none =
      (["/tmp/t.mp3"], some PyErr.connectionError) ∧
    googleTTS_say "en" [] "/tmp/t.mp3" none (some (PyErr.oSError "mad")) =
      (["/tmp/t.mp3"], some (PyErr.oSError "mad")) :=
  ⟨C1_amended_theorem.1 (some "key") (some "en-us") ⟨500, "oops"⟩ rfl rfl rfl,
   C1_amended_theorem.2.1 (some "key") (some "en-us") ⟨200, "oops"⟩
     "No JSON object could be decoded" rfl rfl rfl rfl,
   C1_amended_theorem.2.2.1 (some "key") (some "en-us") rfl rfl,
   C1_amended_theorem.2.2.2.1 ⟨"tok", 3600, 100⟩ 100 HttpOutcome.netError
     ⟨500, "oops"⟩ rfl rfl,
   C1_amended_theorem.2.2.2.2.1 ⟨"tok", 3600, 100⟩ 100 HttpOutcome.netError
     ⟨200, "oops"⟩ "No JSON object could be decoded" rfl rfl rfl,
   C1_amended_theorem.2.2.2.2.2.1 ⟨"tok", 3600, 100⟩ 100 HttpOutcome.netError rfl,
   C1_amended_theorem.2.2.2.2.2.2.1 ⟨"old", 3600, 0⟩ 4000
     (HttpOutcome.resp ⟨200, "\x7b\"result\":[\"hello\"]\x7d"⟩) (by decide),
   C1_amended_theorem.2.2.2.2.2.2.2.1 "en" [] "/tmp/t.mp3" PyErr.connectionError none
     (by decide),
   C1_amended_theorem.2.2.2.2.2.2.2.2 "en" [] "/tmp/t.mp3" (PyErr.oSError "mad")
     (by decide)⟩

/-- jUpper succeeds only with an uppercased string. -/
lemma jUpper_shape {j : Json} {s : String} (h : jUpper j = Except.ok s) :
    ∃ r : String, s = pyUpper r := by
  cases j <;> simp [jUpper] at h
  exact ⟨_, h.symm⟩

/-- Every string produced by upperAll is an uppercased original. -/
lemma upperAll_shape : ∀ {js : List Json} {us : List String},
    upperAll js = Except.ok us → ∃ raw : List String, us = raw.map pyUpper := by
  intro js
  induction js with
  | nil =>
    intro us h
    simp [upperAll] at h
    exact ⟨[], by simp [h]⟩
  | cons j t ih =>
    intro us h
    unfold upperAll at h
    rcases hj : jUpper j with e | s
    · simp only [hj, error_bind] at h
      exact Except.noConfusion h
    · rcases ht : upperAll t with e2 | ss
      · simp only [hj, ok_bind, ht, error_bind] at h
        exact Except.noConfusion h
      · simp only [hj, ok_bind, ht] at h
        injection h with h
        obtain ⟨r, hr⟩ := jUpper_shape hj
        obtain ⟨raw, hraw⟩ := ih ht
        refine ⟨r :: raw, ?_⟩
        rw [← h, hr, hraw]
        rfl

/-- Every outcome of the Baidu response handler: an uncaught exception,
the empty list, or a single uppercased transcript. -/
lemma baiduHandleBody_shape (body : String) :
    (∃ e, baiduHandleBody body = Except.error e) ∨
    baiduHandleBody body = Except.ok [] ∨
    ∃ raw : String, baiduHandleBody body = Except.ok [pyUpper raw] := by
  unfold baiduHandleBody
  split
  case _ text heq =>
    by_cases htext : text = ""
    · right
      left
      simp [htext]
    · right
      right
      exact ⟨text, by simp [htext]⟩
  · right
    left
    rfl
  · right
    left
    rfl
  · left
    exact ⟨_, rfl⟩

/-- C10: every candidate returned by a successful GoogleSTT or BaiduSTT
transcription is uppercased before being returned, GoogleSTT returns a
tuple exactly on the success path, and every GoogleSTT list result (the
empty and error paths) is the empty list. -/
theorem C10_theorem :
    (∀ (k l : Option String) (post : HttpOutcome) (ts : List String),
      googleSTT_transcribe k l post = Except.ok (PyResult.pyTuple ts) →
      ∃ raw : List String, ts = raw.map pyUpper) ∧
    (∀ (k l : Option String) (post : HttpOutcome) (xs : List String),
      googleSTT_transcribe k l post = Except.ok (PyResult.pyList xs) → xs = []) ∧
    (∀ (k l : Option String) (r : HttpResp) (js : List Json) (us : List String),
      pyFalsyOpt k = false → pyFalsyOpt l = false → httpFailed r.status = false →
      googleTryChars (lastDocChars (pyStripList r.body.data)) = Except.ok js →
      upperAll js = Except.ok us →
      googleSTT_transcribe k l (HttpOutcome.resp r) = Except.ok (PyResult.pyTuple us)) ∧
    (∀ (st : BaiduState) (now : Int) (tokR post : HttpOutcome)
      (st1 : BaiduState) (ts : List String),
      baiduSTT_transcribe st now tokR post = (st1, Except.ok ts) →
      ts = [] ∨ ∃ raw : String, ts = [pyUpper raw]) := by
  refine ⟨?_, ?_, ?_, ?_⟩
  · intro k l post ts h
    unfold googleSTT_transcribe at h
    split at h
    · exact absurd h (by simp)
    split at h
    · exact absurd h (by simp)
    split at h
    · exact absurd h (by simp)
    split at h
    · exact absurd h (by simp)
    unfold googleHandleBody at h
    split at h
    case _ ts0 heq =>
      rcases hu : upperAll ts0 with e | us
      · rw [hu] at h
        exact absurd h (by simp [Except.map])
      · rw [hu] at h
        simp [Except.map] at h
        obtain ⟨raw, hraw⟩ := upperAll_shape hu
        refine ⟨raw, ?_⟩
        cases h
        exact hraw
    · exact absurd h (by simp)
    · exact absurd h (by simp)
    · exact absurd h (by simp)
    · exact absurd h (by simp)
  · intro k l post xs h
    unfold googleSTT_transcribe at h
    split at h
    · simp at h
      first | exact h | exact h.symm
    split at h
    · simp at h
      first | exact h | exact h.symm
    split at h
    · exact absurd h (by simp)
    split at h
    · simp at h
      first | exact h | exact h.symm
    unfold googleHandleBody at h
    split at h
    case _ ts0 heq =>
      rcases hu : upperAll ts0 with e | us
      · rw [hu] at h
        exact absurd h (by simp [Except.map])
      · rw [hu] at h
        exact absurd h (by simp [Except.map])
    · simp at h
      first | exact h | exact h.symm
    · simp at h
      first | exact h | exact h.symm
    · simp at h
      first | exact h | exact h.symm
    · exact absurd h (by simp)
  · intro k l r js us hk hl hr hjs hus
    simp [googleSTT_transcribe, hk, hl, hr, googleHandleBody, hjs, hus, Except.map]
  · intro st now tokR post st1 ts h
    unfold baiduSTT_transcribe at h
    rcases hg : get_token st now tokR with ⟨st2, e2⟩
    rw [hg] at h
    rcases e2 with _ | e
    · rcases post with _ | r
      · exact absurd h (by simp)
      · by_cases hf : httpFailed r.status = true
        · simp [hf] at h
          left
          first | exact h.2 | exact h.2.symm
        · simp [hf] at h
          have hb : baiduHandleBody r.body = Except.ok ts := by
            first | exact h.2 | exact h.2.symm
          rcases baiduHandleBody_shape r.body with ⟨e, he⟩ | he | ⟨raw, he⟩
          · rw [he] at hb
            exact Except.noConfusion hb
          · rw [he] at hb
            injection hb with hb
            left
            exact hb.symm
          · rw [he] at hb
            injection hb with hb
            right
            exact ⟨raw, hb.symm⟩
    · exact absurd h (by simp)

/-- C10, witness: a Google response whose transcript is already uppercase
comes back as a tuple of uppercased strings, the empty-result body comes
back as the empty list, and a Baidu response with a lowercase transcript
comes back uppercased. -/
theorem C10_theorem_witness :
    (∃ raw : List String, ["HELLO"] = raw.map pyUpper) ∧
    ([] : List String) = [] ∧
    googleSTT_transcribe (some "key") (some "en-us")
      (HttpOutcome.resp ⟨200, "\x7b\"result\":[\x7b\"alternative\":[\x7b\"transcript\":\"HELLO\"\x7d]\x7d]\x7d"⟩) =
      Except.ok (PyResult.pyTuple ["HELLO"]) ∧
    (["HELLO"] = [] ∨ ∃ raw : String, ["HELLO"] = [pyUpper raw]) :=
  ⟨C10_theorem.1 (some "key") (some "en-us")
      (HttpOutcome.resp ⟨200, "\x7b\"result\":[\x7b\"alternative\":[\x7b\"transcript\":\"HELLO\"\x7d]\x7d]\x7d"⟩)
      ["HELLO"] rfl,
   C10_theorem.2.1 (some "key") (some "en-us")
      (HttpOutcome.resp ⟨200, "\x7b\"result\":[]\x7d"⟩) [] rfl,
   C10_theorem.2.2.1 (some "key") (some "en-us")
      ⟨200, "\x7b\"result\":[\x7b\"alternative\":[\x7b\"transcript\":\"HELLO\"\x7d]\x7d]\x7d"⟩
      [Json.str "HELLO"] ["HELLO"] rfl rfl rfl rfl rfl,
   C10_theorem.2.2.2 ⟨"tok", 3600, 100⟩ 100 HttpOutcome.netError
      (HttpOutcome.resp ⟨200, "\x7b\"result\":[\"hello\"]\x7d"⟩)
      ⟨"tok", 3600, 100⟩ ["HELLO"] rfl⟩

/-! ## Claims C2 and C7: engine selection -/

/-- The STT not-found and unavailable messages differ in their first
character for every slug, so the two ValueErrors stay distinguishable. -/
lemma sttMsgs_ne (s : String) : sttNotFoundMsg s ≠ sttUnavailableMsg s := by
  intro h
  have h2 : (sttNotFoundMsg s).data.head? = (sttUnavailableMsg s).data.head? := by rw [h]
  have e1 : (sttNotFoundMsg s).data.head? = some 'N' := rfl
  have e2 : (sttUnavailableMsg s).data.head? = some 'S' := rfl
  rw [e1, e2] at h2
  exact absurd h2 (by decide)

/-- The TTS not-found and unavailable messages differ in their first
character for every slug. -/
lemma ttsMsgs_ne (s : String) : ttsNotFoundMsg s ≠ ttsUnavailableMsg s := by
  intro h
  have h2 : (ttsNotFoundMsg s).data.head? = (ttsUnavailableMsg s).data.head? := by rw [h]
  have e1 : (ttsNotFoundMsg s).data.head? = some 'N' := rfl
  have e2 : (ttsNotFoundMsg s).data.head? = some 'N' := rfl
  have e3 : (ttsUnavailableMsg s).data.head? = some 'T' := rfl
  rw [e1, e3] at h2
  exact absurd h2 (by decide)

/-- C2, counterexample. The claim quantifies over every slug string, but
for the empty string — which no engine registers — both selectors raise
TypeError (the invalid-selector guard) rather than the not-found
ValueError the claim requires. -/
theorem C2_counterexample :
    stt_get_engine_by_slug [⟨"sphinx", true⟩] (some "") =
      Except.error (PyErr.typeError "Invalid slug") ∧
    PyErr.typeError "Invalid slug" ≠ PyErr.valueError (sttNotFoundMsg "") :=
  ⟨rfl, by decide⟩

/-- C2, amended: for every nonempty slug, when no registered engine
matches, both selectors fail with the not-found ValueError and with no
other error; when exactly one engine matches and its availability probe
returns false, they fail with the distinct unavailable ValueError, and no
engine value is produced (construction happens only after a successful
selection); the two messages differ for every slug, so a caller can
distinguish the failure kinds. -/
theorem C2_amended_theorem :
    (∀ (reg : List EngineDesc) (s : String), s ≠ "" → (∀ e ∈ reg, e.slug ≠ s) →
      stt_get_engine_by_slug reg (some s) =
        Except.error (PyErr.valueError (sttNotFoundMsg s)) ∧
      tts_get_engine_by_slug reg (some s) =
        Except.error (PyErr.valueError (ttsNotFoundMsg s))) ∧
    (∀ (reg : List EngineDesc) (s : String) (e : EngineDesc), s ≠ "" →
      reg.filter (fun d => d.slug == s) = [e] → e.available = false →
      stt_get_engine_by_slug reg (some s) =
        Except.error (PyErr.valueError (sttUnavailableMsg s)) ∧
      tts_get_engine_by_slug reg (some s) =
        Except.error (PyErr.valueError (ttsUnavailableMsg s))) ∧
    (∀ s : String, sttNotFoundMsg s ≠ sttUnavailableMsg s ∧
      ttsNotFoundMsg s ≠ ttsUnavailableMsg s) := by
  refine ⟨?_, ?_, ?_⟩
  · intro reg s hs hnone
    have hfilter : reg.filter (fun d => d.slug == s) = [] :=
      List.filter_eq_nil_iff.mpr (fun e he => by simp [hnone e he])
    constructor
    · simp [stt_get_engine_by_slug, hs, hfilter]
    · simp [tts_get_engine_by_slug, hs, hfilter]
  · intro reg s e hs hone he
    constructor
    · simp [stt_get_engine_by_slug, hs, hone, he]
    · simp [tts_get_engine_by_slug, hs, hone, he]
  · intro s
    exact ⟨sttMsgs_ne s, ttsMsgs_ne s⟩

/-- C2, witness: a slug absent from the registry gives the not-found
error, an unavailable Google engine gives the unavailable error, and the
two messages differ. -/
theorem C2_amended_theorem_witness :
    (stt_get_engine_by_slug [⟨"sphinx", true⟩] (some "nope") =
       Except.error (PyErr.valueError (sttNotFoundMsg "nope")) ∧
     tts_get_engine_by_slug [⟨"sphinx", true⟩] (some "nope") =
       Except.error (PyErr.valueError (ttsNotFoundMsg "nope"))) ∧
    (stt_get_engine_by_slug [⟨"google", false⟩] (some "google") =
       Except.error (PyErr.valueError (sttUnavailableMsg "google")) ∧
     tts_get_engine_by_slug [⟨"google", false⟩] (some "google") =
       Except.error (PyErr.valueError (ttsUnavailableMsg "google"))) ∧
    (sttNotFoundMsg "google" ≠ sttUnavailableMsg "google" ∧
     ttsNotFoundMsg "google" ≠ ttsUnavailableMsg "google") :=
  ⟨C2_amended_theorem.1 [⟨"sphinx", true⟩] "nope" (by decide) (by decide),
   C2_amended_theorem.2.1 [⟨"google", false⟩] "google" ⟨"google", false⟩
     (by decide) rfl rfl,
   C2_amended_theorem.2.2 "google"⟩

/-- C7: with two engines registered under the same slug, the STT selector
prints the duplicate-registration warning and deterministically returns
the first match in registration order, but the TTS selector crashes with
TypeError while building the warning text, because the percent operator
binds only to the second string literal (which has no conversion). The
STT half shows the intended behavior the claim and the spec describe; the
TTS half records the slip. -/
theorem C7_code_eval :
    stt_get_engine_by_slug [⟨"dup", true⟩, ⟨"dup", false⟩] (some "dup") =
      Except.ok (⟨"dup", true⟩,
        some "WARNING: Multiple STT engines found for slug \x27dup\x27. This is most certainly a bug.") ∧
    tts_get_engine_by_slug [⟨"dup", true⟩, ⟨"dup", false⟩] (some "dup") =
      Except.error (PyErr.typeError "not all arguments converted during string formatting") :=
  ⟨rfl, rfl⟩

/-! ## Claim C6: the BaiduTTS phrase cache -/

/-- C6: with the cache enabled and the artifact not yet on disk, the
first say synthesizes (one text2audio request), plays the fresh temporary
file, and renames it onto the cache path instead of deleting it; the
second say with the same phrase finds the cache artifact, plays it, and
issues no further synthesis request — one request across both calls. -/
theorem C6_theorem
    (s0 : TtsRun) (phrase tmp tmp2 : String) (now now2 : Int)
    (tr tr2 sr2 : HttpOutcome) (r : HttpResp)
    (hmiss : s0.files.contains (baiduCachePath phrase) = false)
    (htok : (get_token s0.tok now tr).2 = none)
    (hsp : speechHasErrMsg r = false)
    (htmp : tmp ∉ s0.files) (hne : tmp ≠ baiduCachePath phrase) :
    baiduTTS_say s0 phrase true now tr (HttpOutcome.resp r) tmp =
      ({ tok := (get_token s0.tok now tr).1,
         files := baiduCachePath phrase :: s0.files,
         played := s0.played ++ [tmp],
         synthReqs := s0.synthReqs + 1 }, none) ∧
    baiduTTS_say { tok := (get_token s0.tok now tr).1,
                   files := baiduCachePath phrase :: s0.files,
                   played := s0.played ++ [tmp],
                   synthReqs := s0.synthReqs + 1 } phrase true now2 tr2 sr2 tmp2 =
      ({ tok := (get_token s0.tok now tr).1,
         files := baiduCachePath phrase :: s0.files,
         played := (s0.played ++ [tmp]) ++ [baiduCachePath phrase],
         synthReqs := s0.synthReqs + 1 }, none) ∧
    tmp ∉ baiduCachePath phrase :: s0.files := by
  refine ⟨?_, ?_, ?_⟩
  · rcases hg : get_token s0.tok now tr with ⟨tok1, e1⟩
    rw [hg] at htok
    simp at htok
    subst htok
    simp [baiduTTS_say, hmiss, baiduTTS_get_speech, hg, hsp, List.erase_cons_head]
    simpa using hmiss
  · simp [baiduTTS_say, List.contains_cons]
  · simp [hne, htmp]

/-- C6, witness: an empty run, a valid token, an audio response, and the
phrase of the claim — one synthesis across the two calls. -/
theorem C6_theorem_witness :
    baiduTTS_say ⟨⟨"tok", 3600, 100⟩, [], [], 0⟩ "hi" true 100
      HttpOutcome.netError (HttpOutcome.resp ⟨200, "MP3"⟩) "/tmp/t1.mp3" =
      (⟨⟨"tok", 3600, 100⟩, [baiduCachePath "hi"], ["/tmp/t1.mp3"], 1⟩, none) ∧
    baiduTTS_say ⟨⟨"tok", 3600, 100⟩, [baiduCachePath "hi"], ["/tmp/t1.mp3"], 1⟩
      "hi" true 200 HttpOutcome.netError HttpOutcome.netError "/tmp/t2.mp3" =
      (⟨⟨"tok", 3600, 100⟩, [baiduCachePath "hi"],
        ["/tmp/t1.mp3", baiduCachePath "hi"], 1⟩, none) ∧
    "/tmp/t1.mp3" ∉ [baiduCachePath "hi"] :=
  C6_theorem ⟨⟨"tok", 3600, 100⟩, [], [], 0⟩ "hi" "/tmp/t1.mp3" "/tmp/t2.mp3"
    100 200 HttpOutcome.netError HttpOutcome.netError HttpOutcome.netError
    ⟨200, "MP3"⟩ rfl rfl rfl (by simp) (by decide)

/-! ## Claim C9: transient artifact cleanup -/

/-- C9, counterexample. The claim demands the temporary audio file be
deleted on every exit path, including a raising playback collaborator; in
EspeakTTS.say os.remove stands after self.play with no try/finally, so
when playback raises, the file survives and the exception propagates. -/
theorem C9_counterexample :
    espeak_say [] "/tmp/jasper.wav" (some (PyErr.oSError "aplay crashed")) =
      (["/tmp/jasper.wav"], some (PyErr.oSError "aplay crashed")) :=
  rfl

/-- C9, amended: EspeakTTS.say and GoogleTTS.say delete the transient
artifact only on the straight-line exit path; when synthesis (tts.save)
or playback raises, the artifact is left behind and the exception
propagates — cleanup is not exception-safe. -/
theorem C9_amended_theorem :
    (∀ (files : List String) (fname : String),
      espeak_say files fname none = (files, none)) ∧
    (∀ (files : List String) (fname : String) (e : PyErr),
      espeak_say files fname (some e) = (fname :: files, some e)) ∧
    (∀ (lang : String) (files : List String) (tmp : String), lang ∈ googleLangs →
      googleTTS_say lang files tmp none none = (files, none)) ∧
    (∀ (lang : String) (files : List String) (tmp : String) (e : PyErr),
      lang ∈ googleLangs →
      googleTTS_say lang files tmp none (some e) = (tmp :: files, some e)) ∧
    (∀ (lang : String) (files : List String) (tmp : String) (e : PyErr) (p : Option PyErr),
      lang ∈ googleLangs →
      googleTTS_say lang files tmp (some e) p = (tmp :: files, some e)) := by
  refine ⟨?_, ?_, ?_, ?_, ?_⟩
  · intro files fname
    simp [espeak_say, List.erase_cons_head]
  · intro files fname e
    rfl
  · intro lang files tmp h
    simp [googleTTS_say, h, List.erase_cons_head]
  · intro lang files tmp e h
    simp [googleTTS_say, h]
  · intro lang files tmp e p h
    simp [googleTTS_say, h]

/-- C9, witness: the clean path removes the file; a raising save or
playback leaves it on disk for both engines. -/
theorem C9_amended_theorem_witness :
    espeak_say [] "/tmp/a.wav" none = ([], none) ∧
    espeak_say [] "/tmp/a.wav" (some (PyErr.oSError "boom")) =
      (["/tmp/a.wav"], some (PyErr.oSError "boom")) ∧
    googleTTS_say "en" [] "/tmp/b.mp3" none none = ([], none) ∧
    googleTTS_say "en" [] "/tmp/b.mp3" none (some (PyErr.oSError "boom")) =
      (["/tmp/b.mp3"], some (PyErr.oSError "boom")) ∧
    googleTTS_say "en" [] "/tmp/b.mp3" (some PyErr.connectionError) none =
      (["/tmp/b.mp3"], some PyErr.connectionError) :=
  ⟨C9_amended_theorem.1 [] "/tmp/a.wav",
   C9_amended_theorem.2.1 [] "/tmp/a.wav" (PyErr.oSError "boom"),
   C9_amended_theorem.2.2.1 "en" [] "/tmp/b.mp3" (by decide),
   C9_amended_theorem.2.2.2.1 "en" [] "/tmp/b.mp3" (PyErr.oSError "boom") (by decide),
   C9_amended_theorem.2.2.2.2 "en" [] "/tmp/b.mp3" PyErr.connectionError none (by decide)⟩

end Jasper
